import Mathlib

/-!
Shallow embedding of the HomeGuard agentic AI service
(src/services/python/agentic-ai/main.py): the conversation store, the
local intent matcher, the response formatters, the tool executor, the
Gemini retry client and the chat entry point, together with theorems
settling the frozen claims about them.

Modelling conventions.  Python strings are Lean strings.  Python
dictionaries with a fixed key set are structures whose fields are
Option-valued when the key may be absent (none encodes an absent key,
matching dict.get defaults).  A raised exception is Except.error with
the exception text.  The downstream HTTP services and the Gemini
endpoint are response functions collected in an Env record; one Env is
scoped to one caller identity, absorbing the X-User-ID header that the
Python code threads into every request.  The retry delays are the
floats 10.0, 20.0, 40.0, 60.0, all integral, modelled as Nat seconds.
Identifiers from uuid4() and the current timestamp are opaque strings
supplied by Env.
-/

namespace HomeGuard

/-- Single-quote character, used to spell source strings verbatim. -/
def sq : String := String.singleton (Char.ofNat 39)

/-- Green-circle glyph used by the device-list formatter. -/
def greenCircle : String := String.singleton (Char.ofNat 0x1F7E2)

/-- Red-circle glyph used by the device-list formatter. -/
def redCircle : String := String.singleton (Char.ofNat 0x1F534)

/-- Light-bulb glyph used by the status formatters. -/
def bulb : String := String.singleton (Char.ofNat 0x1F4A1)

/-- Thermometer glyph (with variation selector) used by the status formatters. -/
def thermoIcon : String := String.singleton (Char.ofNat 0x1F321) ++ String.singleton (Char.ofNat 0xFE0F)

/-- Closed-padlock glyph used by the status formatters. -/
def lockedIcon : String := String.singleton (Char.ofNat 0x1F512)

/-- Open-padlock glyph used by the status formatters. -/
def unlockedIcon : String := String.singleton (Char.ofNat 0x1F513)

/-- Camera glyph used by the status formatters. -/
def cameraIcon : String := String.singleton (Char.ofNat 0x1F4F7)

/-- Door glyph used by the single-device status formatter. -/
def doorIcon : String := String.singleton (Char.ofNat 0x1F6AA)

/-- Check-mark glyph used by the action response generator. -/
def checkMark : String := String.singleton (Char.ofNat 0x2713)

/-- Warning glyph (with variation selector) used by the action response generator. -/
def warnIcon : String := String.singleton (Char.ofNat 0x26A0) ++ String.singleton (Char.ofNat 0xFE0F)

/-- Bullet glyph used by the formatters. -/
def bullet : String := String.singleton (Char.ofNat 0x2022)

/-- Degree-Fahrenheit suffix used by the temperature responses. -/
def degreeF : String := String.singleton (Char.ofNat 0xB0) ++ "F"

/-- Python str(x) for an optional string, rendering an absent value as None. -/
def pyStr : Option String → String
  | some s => s
  | none => "None"

/-- Python lower(), using the ASCII case mapping of Char.toLower. -/
def pyLower (s : String) : String := ⟨s.toList.map Char.toLower⟩

/-- Python strip(): remove leading and trailing whitespace. -/
def pyStrip (s : String) : String :=
  ⟨((s.toList.dropWhile Char.isWhitespace).reverse.dropWhile Char.isWhitespace).reverse⟩

/-- Occurrence test on character lists: pat occurs contiguously in the second list. -/
def listContains (pat : List Char) : List Char → Bool
  | [] => pat.isEmpty
  | c :: cs => pat.isPrefixOf (c :: cs) || listContains pat cs

/-- Python substring test: pyIn pat s models the Python expression pat in s. -/
def pyIn (pat s : String) : Bool := listContains pat.toList s.toList

/-- Message normalisation applied by the matcher: message.lower().strip(). -/
def pyNorm (s : String) : String := pyStrip (pyLower s)

/-- Fuel-indexed core of Python str.replace(pat, rem-with-empty): delete
non-overlapping occurrences of pat left to right.  The fuel is the length of
the scanned list, which bounds the number of steps. -/
def pyEraseAux (pat : List Char) : Nat → List Char → List Char
  | _, [] => []
  | 0, s => s
  | fuel + 1, c :: cs =>
    if !pat.isEmpty && pat.isPrefixOf (c :: cs) then
      pyEraseAux pat fuel ((c :: cs).drop pat.length)
    else
      c :: pyEraseAux pat fuel cs

/-- Python s.replace(pat, two-quote empty string): every occurrence of pat deleted. -/
def pyErase (s pat : String) : String :=
  ⟨pyEraseAux pat.toList s.toList.length s.toList⟩

/-- Accumulator pass for Python str.split() with no argument: whitespace-run
separated words, empties dropped. -/
def pyWordsAux : List Char → List Char → List (List Char)
  | acc, [] => if acc.isEmpty then [] else [acc.reverse]
  | acc, c :: cs =>
    if c.isWhitespace then
      if acc.isEmpty then pyWordsAux [] cs else acc.reverse :: pyWordsAux [] cs
    else pyWordsAux (c :: acc) cs

/-- Python str.split() with no argument. -/
def pyWords (s : String) : List String := (pyWordsAux [] s.toList).map String.mk

/-- Decimal value of a digit run. -/
def natOfDigits (ds : List Char) : Nat := ds.foldl (fun a c => a * 10 + (c.toNat - 48)) 0

/-- First maximal digit run of the character list, as a number. -/
def firstNatAux : List Char → Option Nat
  | [] => none
  | c :: cs =>
    if c.isDigit then some (natOfDigits (c :: cs.takeWhile Char.isDigit))
    else firstNatAux cs

/-- Leftmost integer in the message; models the first regex group of the
temperature search, whose trailing unit is optional. -/
def firstNat (s : String) : Option Nat := firstNatAux s.toList

/-- Python sep.join(xs). -/
def joinWith (sep : String) : List String → String
  | [] => ""
  | [x] => x
  | x :: y :: xs => x ++ sep ++ joinWith sep (y :: xs)

/-- Per-device configuration dictionary; keys observed by the formatters. -/
structure DeviceConfig where
  locked : Option Bool := none
  power_on : Option Bool := none
  brightness : Option Int := none
  target_temp : Option Int := none
deriving DecidableEq, Repr

/-- Device record as returned by the device directory.  The status key is not
produced by the directory contract; it is kept optional because the code reads
it with dict.get and a default. -/
structure Device where
  id : String
  name : String
  type : String
  online : Bool
  location : String
  config : DeviceConfig := {}
  status : Option String := none
deriving DecidableEq, Repr

/-- Result shape of the list_devices tool. -/
structure DevicesResult where
  devices : List Device
  error : Option String := none
deriving DecidableEq, Repr

/-- Loose status payload returned by the per-device status endpoint; every key
the code reads is a field, absent keys are none.  The device_config field
models payload.device.config when the payload carries a device key. -/
structure StatusJson where
  name : Option String := none
  state : Option String := none
  status : Option String := none
  location : Option String := none
  type : Option String := none
  brightness : Option Int := none
  motion_detection : Option Bool := none
  target_temperature : Option Int := none
  online : Option Bool := none
  config : DeviceConfig := {}
  device_config : Option DeviceConfig := none
  error : Option String := none
deriving DecidableEq, Repr

/-- Result shape of the get_all_device_statuses tool.  The count key is absent
in the empty-device early return of the source. -/
structure AllStatuses where
  statuses : List StatusJson
  count : Option Nat := none
deriving DecidableEq, Repr

/-- Result shape of the send_device_command tool. -/
structure CmdResult where
  success : Bool
  message : Option String := none
  error : Option String := none
deriving DecidableEq, Repr

/-- Result shape of the create_automation tool. -/
structure AutomationResult where
  success : Bool
  message : String
  id : String
deriving DecidableEq, Repr

/-- One entry of the analytics top_devices list. -/
structure TopDevice where
  name : String
  events : Int
deriving DecidableEq, Repr

/-- Result shape of the get_analytics tool, with the summary keys inlined; the
only producer in the source is the mock, which always supplies every key. -/
structure AnalyticsResult where
  period : String
  total_events : Int
  active_devices : Int
  alerts : Int
  energy_usage : String
  top_devices : List TopDevice
deriving DecidableEq, Repr

/-- Argument dictionary of a tool call; exactly the keys the source reads. -/
structure Args where
  device_type : Option String := none
  device_id : Option String := none
  command : Option String := none
  parameters : Option (List (String × Int)) := none
  period : Option String := none
  name : Option String := none
deriving DecidableEq, Repr

/-- Uniform tool result: one constructor per tool result shape, plus the
error dictionary produced by the executor for unknown tools and captured
exceptions. -/
inductive ToolResult
  | devices (r : DevicesResult)
  | statusJson (r : StatusJson)
  | allStatuses (r : AllStatuses)
  | cmd (r : CmdResult)
  | automation (r : AutomationResult)
  | analytics (r : AnalyticsResult)
  | errorRes (e : String)
deriving DecidableEq, Repr

/-- Audit record accumulated per request: tool name, arguments, result. -/
structure ActionRec where
  tool : String
  args : Args
  result : ToolResult
deriving DecidableEq, Repr

/-- One part of a Gemini candidate content: free text or a function call. -/
inductive Part
  | text (s : String)
  | funcCall (name : String) (args : Args)
deriving DecidableEq, Repr

/-- Parsed Gemini response body: candidates, each with its content parts. -/
structure PlannerResponse where
  candidates : List (List Part)
deriving DecidableEq, Repr

/-- Outcome of one attempt against the Gemini endpoint: an HTTP response with
a status code and parsed body, or a transport exception. -/
inductive AttemptOutcome
  | resp (code : Nat) (body : PlannerResponse)
  | exn (e : String)
deriving DecidableEq, Repr

/-- External world of one caller: downstream device service responses, the
automation webhook of the §6 contract (never consulted by the code), the
Gemini endpoint behaviour per attempt index, and the opaque fresh
identifier and timestamp sources. -/
structure Env where
  devicesHttp : Option String → Except String (Nat × List Device)
  statusHttp : Option String → Except String (Nat × StatusJson)
  commandHttp : Option String → Option String → List (String × Int) → Except String Nat
  automationHttp : String → Except String Nat
  gemini : Nat → AttemptOutcome
  freshUuid : String
  now : String

/-- Conversation message: role plus the text of its single part. -/
structure Msg where
  role : String
  text : String
deriving DecidableEq, Repr

/-- In-memory conversation store keyed by conversation id. -/
abbrev Store := List (String × List Msg)

/-- Dictionary lookup on the store. -/
def lookupStore (cid : String) : Store → Option (List Msg)
  | [] => none
  | (k, v) :: rest => if k = cid then some v else lookupStore cid rest

/-- Dictionary assignment on the store. -/
def insertStore (cid : String) (h : List Msg) : Store → Store
  | [] => [(cid, h)]
  | (k, v) :: rest =>
    if k = cid then (cid, h) :: rest else (k, v) :: insertStore cid h rest

/-- Tool list_devices: GET /devices with an optional type filter.  The filter
parameter is attached only when the device_type argument is truthy, matching
the Python guard on args.get. -/
def toolListDevices (env : Env) (args : Args) : Except String DevicesResult :=
  let t : Option String :=
    match args.device_type with
    | some s => if s = "" then none else some s
    | none => none
  match env.devicesHttp t with
  | .error e => .error e
  | .ok (code, body) =>
    if code = 200 then .ok { devices := body }
    else .ok { devices := [], error := some "Failed to fetch devices" }

/-- Tool get_device_status: GET /devices/id/status. -/
def toolGetDeviceStatus (env : Env) (args : Args) : Except String StatusJson :=
  match env.statusHttp args.device_id with
  | .error e => .error e
  | .ok (code, body) =>
    if code = 200 then .ok body
    else .ok { error := some "Device not found" }

/-- One per-device fetch of the bulk status fan-out; its own try/except turns
any failure into an error entry instead of aborting the gather. -/
def statusEntrySafe (env : Env) (d : Device) : StatusJson :=
  match env.statusHttp (some d.id) with
  | .error e => { name := some d.name, status := some "error", error := some e }
  | .ok (code, body) =>
    if code = 200 then body
    else { name := some d.name, status := some "unknown", error := some "Failed to get status" }

/-- Tool get_all_device_statuses: list devices, then fetch every status.  The
source gathers the fetches concurrently and the formatter iterates them in
listing order, so the value is the listing-order list of entries. -/
def toolGetAllDeviceStatuses (env : Env) (_args : Args) : Except String AllStatuses :=
  match toolListDevices env {} with
  | .error e => .error e
  | .ok dres =>
    let devices := dres.devices
    if devices.isEmpty then .ok { statuses := [] }
    else .ok { statuses := devices.map (statusEntrySafe env), count := some devices.length }

/-- Tool send_device_command: POST /devices/id/command with command and
payload; status 200 or 202 counts as accepted. -/
def toolSendDeviceCommand (env : Env) (args : Args) : Except String CmdResult :=
  match env.commandHttp args.device_id args.command (args.parameters.getD []) with
  | .error e => .error e
  | .ok code =>
    if code = 200 || code = 202 then
      .ok { success := true,
            message := some ("Command " ++ sq ++ pyStr args.command ++ sq ++ " executed") }
    else .ok { success := false, error := some "Failed to send command" }

/-- Tool create_automation: the source returns a mock success without
contacting the automation webhook (Env.automationHttp is never consulted). -/
def toolCreateAutomation (env : Env) (args : Args) : Except String AutomationResult :=
  .ok { success := true,
        message := "Automation " ++ sq ++ pyStr args.name ++ sq ++ " created",
        id := env.freshUuid }

/-- Fixed analytics payload returned by the mock, for a given period. -/
def analyticsMock (period : String) : AnalyticsResult :=
  { period := period, total_events := 142, active_devices := 8, alerts := 3,
    energy_usage := "12.5 kWh",
    top_devices := [⟨"Living Room Camera", 45⟩, ⟨"Front Door Sensor", 32⟩, ⟨"Thermostat", 28⟩] }

/-- Tool get_analytics: the mock summary at the requested period. -/
def toolGetAnalytics (_env : Env) (args : Args) : Except String AnalyticsResult :=
  .ok (analyticsMock (args.period.getD "day"))

/-- Device-list formatter. -/
def formatDeviceList (result : DevicesResult) : String :=
  let devices := result.devices
  if devices.isEmpty then "You don" ++ sq ++ "t have any devices registered yet."
  else
    joinWith "\n"
      (("You have " ++ toString devices.length ++ " device(s):\n") ::
        devices.map (fun d =>
          let status := if d.online then greenCircle ++ " online" else redCircle ++ " offline"
          bullet ++ " **" ++ d.name ++ "** (" ++ d.type ++ ") - " ++ status))

/-- Insertion-ordered grouping step: append the entry to its location bucket,
creating the bucket at the end on first sight, as a Python dict does. -/
def insertGroup (loc : String) (s : StatusJson) :
    List (String × List StatusJson) → List (String × List StatusJson)
  | [] => [(loc, [s])]
  | (l, ss) :: rest =>
    if l = loc then (l, ss ++ [s]) :: rest else (l, ss) :: insertGroup loc s rest

/-- Group bulk-status entries by their location key, default Other. -/
def groupByLocation (statuses : List StatusJson) : List (String × List StatusJson) :=
  statuses.foldl (fun acc s => insertGroup (s.location.getD "Other") s acc) []

/-- Python state lookup with fallback: state key, then status key, then unknown. -/
def statusState (s : StatusJson) : String :=
  match s.state with
  | some st => st
  | none => s.status.getD "unknown"

/-- One line of the bulk-status rendering, dispatching on the type key. -/
def renderStatusEntry (s : StatusJson) : String :=
  let name := s.name.getD "Unknown"
  let dtype := s.type.getD ""
  if dtype = "light" then
    if s.state = some "on" then
      let extra :=
        match s.brightness with
        | some b => if b ≠ 0 then ", brightness " ++ toString b ++ "%" else ""
        | none => ""
      "  " ++ bullet ++ " " ++ name ++ ": " ++ bulb ++ " On" ++ extra
    else "  " ++ bullet ++ " " ++ name ++ ": Off"
  else if dtype = "thermostat" then
    let temp :=
      match s.target_temperature with
      | some t => toString t
      | none => match s.config.target_temp with
        | some t => toString t
        | none => "?"
    "  " ++ bullet ++ " " ++ name ++ ": " ++ thermoIcon ++ " " ++ temp ++ degreeF
  else if dtype = "smart_lock" then
    let stateIcon :=
      if s.state = some "locked" then lockedIcon ++ " Locked" else unlockedIcon ++ " Unlocked"
    "  " ++ bullet ++ " " ++ name ++ ": " ++ stateIcon
  else if dtype = "camera" then
    let motion := s.motion_detection.getD false
    "  " ++ bullet ++ " " ++ name ++ ": " ++ cameraIcon ++ " Active" ++
      (if motion then ", motion detection on" else "")
  else if dtype = "door_sensor" then
    let onlineGlyph := if s.online.getD false then greenCircle else redCircle ++ " offline"
    "  " ++ bullet ++ " " ++ name ++ ": " ++ onlineGlyph
  else
    "  " ++ bullet ++ " " ++ name ++ ": " ++ statusState s

/-- Bulk-status formatter: grouped by location, one section per location,
blank line after each section. -/
def formatAllDeviceStatuses (result : AllStatuses) : String :=
  if result.statuses.isEmpty then "No devices found."
  else
    let sections := (groupByLocation result.statuses).map
      (fun g => ("**" ++ g.1 ++ "**") :: (g.2.map renderStatusEntry ++ [""]))
    joinWith "\n" (("Here" ++ sq ++ "s the status of all your devices:\n") :: sections.flatten)

/-- Field-wise dict.update of a configuration: keys present in the overriding
dictionary replace the base keys. -/
def mergeConfig (base over : DeviceConfig) : DeviceConfig :=
  { locked := over.locked.orElse (fun _ => base.locked),
    power_on := over.power_on.orElse (fun _ => base.power_on),
    brightness := over.brightness.orElse (fun _ => base.brightness),
    target_temp := over.target_temp.orElse (fun _ => base.target_temp) }

/-- Single-device status card: the device record config is merged with the
config nested under the device key of the status payload, when present. -/
def formatSingleDeviceStatus (device : Device) (statusResult : StatusJson) : String :=
  let config :=
    match statusResult.device_config with
    | some over => mergeConfig device.config over
    | none => device.config
  let header := "**" ++ device.name ++ "** status:\n"
  let body : List String :=
    if device.type = "smart_lock" then
      let state := if config.locked.getD false then lockedIcon ++ " Locked" else unlockedIcon ++ " Unlocked"
      ["State: " ++ state]
    else if device.type = "light" then
      let state := if config.power_on.getD false then bulb ++ " On" else "Off"
      let brightnessLine :=
        match config.brightness with
        | some b => if b ≠ 0 then ["Brightness: " ++ toString b ++ "%"] else []
        | none => []
      ("State: " ++ state) :: brightnessLine
    else if device.type = "thermostat" then
      let temp := match config.target_temp with
        | some t => toString t
        | none => "?"
      [thermoIcon ++ " Target temperature: " ++ temp ++ degreeF]
    else if device.type = "camera" then
      [cameraIcon ++ " Camera is active"]
    else if device.type = "door_sensor" then
      [doorIcon ++ " Door sensor monitoring"]
    else
      ["Status: " ++ device.status.getD "unknown"]
  let locationLine := if device.location ≠ "" then ["Location: " ++ device.location] else []
  joinWith "\n" (header :: body ++ locationLine)

/-- Analytics formatter: summary block, then up to the top three devices. -/
def formatAnalytics (r : AnalyticsResult) : String :=
  let lines :=
    ["**Activity Summary** (" ++ r.period ++ ")\n",
     bullet ++ " Total events: " ++ toString r.total_events,
     bullet ++ " Active devices: " ++ toString r.active_devices,
     bullet ++ " Alerts: " ++ toString r.alerts,
     bullet ++ " Energy usage: " ++ r.energy_usage]
  let lines :=
    if r.top_devices.isEmpty then lines
    else lines ++ ("\n**Most Active Devices:**" ::
      (r.top_devices.take 3).map
        (fun d => "  " ++ bullet ++ " " ++ d.name ++ ": " ++ toString d.events ++ " events"))
  joinWith "\n" lines

/-- Follow-up suggestion triples, chosen by the first matching keyword
category of the raw user message. -/
def generateSuggestions (userMessage _response : String) : List String :=
  let lower := pyLower userMessage
  if pyIn "device" lower || pyIn "status" lower then
    ["Show offline devices", "Turn on all lights", "Lock all doors"]
  else if pyIn "temperature" lower then
    ["Set thermostat schedule", "Show energy usage", "Turn on AC"]
  else if pyIn "security" lower || pyIn "camera" lower then
    ["Show motion alerts", "Lock front door", "Arm security system"]
  else
    ["What" ++ sq ++ "s the status of my devices?", "Turn on living room lights",
     "Show today" ++ sq ++ "s activity"]

/-- Phrase set of the device-listing rule. -/
def devicePatterns : List String :=
  ["what devices", "list devices", "show devices", "my devices", "all devices", "do i have"]

/-- Phrase set of the bulk-status rule. -/
def allStatusPatterns : List String :=
  ["status of all", "all device status", "all status", "status of my devices", "show me all device"]

/-- Phrase set of the single-device status rule. -/
def statusPatterns : List String :=
  ["status of", "what is the status", "is the", "check the", "how is the"]

/-- Action-phrase to command pairs shared by the on/off rules. -/
def onOffPairs : List (String × String) :=
  [("turn on", "turn_on"), ("turn off", "turn_off"),
   ("switch on", "turn_on"), ("switch off", "turn_off")]

/-- Action to command pairs of the lock rule; unlock is checked first because
the substring lock is contained in unlock. -/
def lockPairs : List (String × String) := [("unlock", "unlock"), ("lock", "lock")]

/-- Keyword set of the analytics rule. -/
def analyticsKeywords : List String :=
  ["analytics", "usage", "activity", "summary", "insights"]

/-- Candidate device name extraction: remove the action phrase, then each
stop word, stripping after every removal. -/
def extractDeviceName (message action : String) : Option String :=
  let text := pyStrip (pyErase message action)
  let text :=
    ["the", "my", "please", "can you", "could you", "device", "for me"].foldl
      (fun t w => pyStrip (pyErase t w)) text
  if text = "" then none else some text

/-- Case-insensitive partial name match: first device whose lowered name
contains the fragment or is contained in it. -/
def findDeviceByName : List Device → String → Option Device
  | [], _ => none
  | d :: rest, nm =>
    let nameLower := pyLower nm
    let deviceName := pyLower d.name
    if pyIn nameLower deviceName || pyIn deviceName nameLower then some d
    else findDeviceByName rest nm

/-- Chaining combinator for the ordered rule groups: stop on a raised
exception or a successful match, fall through on a miss. -/
def orTry (x : Except String (Option α)) (k : Unit → Except String (Option α)) :
    Except String (Option α) :=
  match x with
  | .error e => .error e
  | .ok (some r) => .ok (some r)
  | .ok none => k ()

/-- Rule 1, device listing: any listing phrase present and the word status
absent. -/
def ruleListDevices (env : Env) (msg : String) :
    Except String (Option (String × List ActionRec)) :=
  if devicePatterns.any (fun p => pyIn p msg) && !(pyIn "status" msg) then
    match toolListDevices env {} with
    | .error e => .error e
    | .ok result =>
      .ok (some (formatDeviceList result,
        [{ tool := "list_devices", args := {}, result := ToolResult.devices result }]))
  else .ok none

/-- Rule 2, bulk status: any bulk-status phrase present. -/
def ruleAllStatuses (env : Env) (msg : String) :
    Except String (Option (String × List ActionRec)) :=
  if allStatusPatterns.any (fun p => pyIn p msg) then
    match toolGetAllDeviceStatuses env {} with
    | .error e => .error e
    | .ok result =>
      .ok (some (formatAllDeviceStatuses result,
        [{ tool := "get_all_device_statuses", args := {},
           result := ToolResult.allStatuses result }]))
  else .ok none

/-- Device scan of rule 3: first device in listing order with a name word of
length above two occurring in the message; a raised status fetch propagates. -/
def ruleSingleStatusLoop (env : Env) (msg : String) (dres : DevicesResult) :
    List Device → Except String (Option (String × List ActionRec))
  | [] => .ok none
  | d :: rest =>
    let nameWords := pyWords (pyLower d.name)
    if nameWords.any (fun w => decide (2 < w.length) && pyIn w msg) then
      match toolGetDeviceStatus env { device_id := some d.id } with
      | .error e => .error e
      | .ok statusResult =>
        .ok (some (formatSingleDeviceStatus d statusResult,
          [{ tool := "list_devices", args := {}, result := ToolResult.devices dres },
           { tool := "get_device_status", args := { device_id := some d.id },
             result := ToolResult.statusJson statusResult }]))
    else ruleSingleStatusLoop env msg dres rest

/-- Rule 3, single-device status: on a status phrase, list devices and scan
for a matching name; on no match, fall through to the later rules. -/
def ruleSingleStatus (env : Env) (msg : String) :
    Except String (Option (String × List ActionRec)) :=
  if statusPatterns.any (fun p => pyIn p msg) then
    match toolListDevices env {} with
    | .error e => .error e
    | .ok dres => ruleSingleStatusLoop env msg dres dres.devices
  else .ok none

/-- Sequential command fan-out of rule 4 over the filtered lights, in listing
order, accumulating one action record per send. -/
def sendToAll (env : Env) (cmd : String) : List Device → Except String (List ActionRec)
  | [] => .ok []
  | l :: ls =>
    match toolSendDeviceCommand env { device_id := some l.id, command := some cmd } with
    | .error e => .error e
    | .ok cres =>
      match sendToAll env cmd ls with
      | .error e => .error e
      | .ok rest =>
        .ok ({ tool := "send_device_command",
               args := { device_id := some l.id, command := some cmd },
               result := ToolResult.cmd cres } :: rest)

/-- Rule 4 loop, all-lights on/off: for each action phrase, when the phrase
and the words all and light occur, command every light; an empty light
listing falls through to the next phrase. -/
def ruleAllLightsLoop (env : Env) (msg : String) :
    List (String × String) → Except String (Option (String × List ActionRec))
  | [] => .ok none
  | (action, cmd) :: rest =>
    if pyIn action msg && pyIn "all" msg && pyIn "light" msg then
      match toolListDevices env { device_type := some "light" } with
      | .error e => .error e
      | .ok dres =>
        let lights := dres.devices
        if lights.isEmpty then ruleAllLightsLoop env msg rest
        else
          match sendToAll env cmd lights with
          | .error e => .error e
          | .ok actions =>
            let state := if cmd = "turn_on" then "on" else "off"
            .ok (some ("Done! I" ++ sq ++ "ve turned " ++ state ++ " all " ++
              toString lights.length ++ " light(s).", actions))
    else ruleAllLightsLoop env msg rest

/-- Rule 5 loop, single-device on/off: extract a candidate name, list devices,
match by partial name; any miss falls through to the next phrase. -/
def ruleOneDeviceLoop (env : Env) (msg : String) :
    List (String × String) → Except String (Option (String × List ActionRec))
  | [] => .ok none
  | (action, cmd) :: rest =>
    if pyIn action msg then
      match extractDeviceName msg action with
      | none => ruleOneDeviceLoop env msg rest
      | some deviceName =>
        match toolListDevices env {} with
        | .error e => .error e
        | .ok dres =>
          match findDeviceByName dres.devices deviceName with
          | none => ruleOneDeviceLoop env msg rest
          | some d =>
            match toolSendDeviceCommand env { device_id := some d.id, command := some cmd } with
            | .error e => .error e
            | .ok cres =>
              let state := if cmd = "turn_on" then "on" else "off"
              .ok (some ("Done! I" ++ sq ++ "ve turned " ++ state ++ " the " ++ d.name ++ ".",
                [{ tool := "list_devices", args := {}, result := ToolResult.devices dres },
                 { tool := "send_device_command",
                   args := { device_id := some d.id, command := some cmd },
                   result := ToolResult.cmd cres }]))
    else ruleOneDeviceLoop env msg rest

/-- Rule 6 loop, lock/unlock: when the action word and door or lock occur,
act on the first smart lock; an empty lock listing falls through to the next
pair. -/
def ruleLockLoop (env : Env) (msg : String) :
    List (String × String) → Except String (Option (String × List ActionRec))
  | [] => .ok none
  | (action, cmd) :: rest =>
    if pyIn action msg && (pyIn "door" msg || pyIn "lock" msg) then
      match toolListDevices env { device_type := some "smart_lock" } with
      | .error e => .error e
      | .ok dres =>
        match dres.devices with
        | [] => ruleLockLoop env msg rest
        | d :: _ =>
          match toolSendDeviceCommand env { device_id := some d.id, command := some cmd } with
          | .error e => .error e
          | .ok cres =>
            .ok (some ("Done! I" ++ sq ++ "ve " ++ action ++ "ed the " ++ d.name ++ ".",
              [{ tool := "list_devices", args := { device_type := some "smart_lock" },
                 result := ToolResult.devices dres },
               { tool := "send_device_command",
                 args := { device_id := some d.id, command := some cmd },
                 result := ToolResult.cmd cres }]))
    else ruleLockLoop env msg rest

/-- Rule 7, set temperature: a temperature word, a parseable integer and a
set or to word; act on the first thermostat with the parsed target. -/
def ruleTemperature (env : Env) (msg : String) :
    Except String (Option (String × List ActionRec)) :=
  if pyIn "temperature" msg || pyIn "thermostat" msg then
    match firstNat msg with
    | none => .ok none
    | some temp =>
      if pyIn "set" msg || pyIn "to" msg then
        match toolListDevices env { device_type := some "thermostat" } with
        | .error e => .error e
        | .ok dres =>
          match dres.devices with
          | [] => .ok none
          | d :: _ =>
            let args : Args :=
              { device_id := some d.id, command := some "set_temperature",
                parameters := some [("temperature", (temp : Int))] }
            match toolSendDeviceCommand env args with
            | .error e => .error e
            | .ok cres =>
              .ok (some ("Done! I" ++ sq ++ "ve set the " ++ d.name ++ " to " ++
                  toString temp ++ degreeF ++ ".",
                [{ tool := "list_devices", args := { device_type := some "thermostat" },
                   result := ToolResult.devices dres },
                 { tool := "send_device_command", args := args,
                   result := ToolResult.cmd cres }]))
      else .ok none
  else .ok none

/-- Rule 8, analytics: any analytics keyword; the period defaults to day and
is overridden to week when the word week occurs, otherwise to month when the
word month occurs (if, elif in the source). -/
def ruleAnalytics (env : Env) (msg : String) :
    Except String (Option (String × List ActionRec)) :=
  if analyticsKeywords.any (fun p => pyIn p msg) then
    let period :=
      if pyIn "week" msg then "week"
      else if pyIn "month" msg then "month"
      else "day"
    match toolGetAnalytics env { period := some period } with
    | .error e => .error e
    | .ok result =>
      .ok (some (formatAnalytics result,
        [{ tool := "get_analytics", args := { period := some period },
           result := ToolResult.analytics result }]))
  else .ok none

/-- Local intent matcher: the ordered rule groups over the normalised
message; the first successful match wins, a raised exception propagates, and
a full miss returns none so the caller defers to the planner. -/
def tryLocalHandling (env : Env) (message : String) :
    Except String (Option (String × List ActionRec)) :=
  let msg := pyNorm message
  orTry (ruleListDevices env msg) fun _ =>
  orTry (ruleAllStatuses env msg) fun _ =>
  orTry (ruleSingleStatus env msg) fun _ =>
  orTry (ruleAllLightsLoop env msg onOffPairs) fun _ =>
  orTry (ruleOneDeviceLoop env msg onOffPairs) fun _ =>
  orTry (ruleLockLoop env msg lockPairs) fun _ =>
  orTry (ruleTemperature env msg) fun _ =>
  ruleAnalytics env msg

/-- Tool registry dispatch: the if/elif chain of the executor without its
exception capture; none encodes an unknown tool name. -/
def toolDispatch (env : Env) (toolName : String) (args : Args) :
    Option (Except String ToolResult) :=
  if toolName = "list_devices" then some ((toolListDevices env args).map ToolResult.devices)
  else if toolName = "get_device_status" then
    some ((toolGetDeviceStatus env args).map ToolResult.statusJson)
  else if toolName = "get_all_device_statuses" then
    some ((toolGetAllDeviceStatuses env args).map ToolResult.allStatuses)
  else if toolName = "send_device_command" then
    some ((toolSendDeviceCommand env args).map ToolResult.cmd)
  else if toolName = "create_automation" then
    some ((toolCreateAutomation env args).map ToolResult.automation)
  else if toolName = "get_analytics" then
    some ((toolGetAnalytics env args).map ToolResult.analytics)
  else none

/-- The registered tool names, in dispatch order. -/
def knownToolNames : List String :=
  ["list_devices", "get_device_status", "get_all_device_statuses",
   "send_device_command", "create_automation", "get_analytics"]

/-- Tool executor: a total function.  An unknown name yields the unknown-tool
error dictionary; an exception raised by a tool implementation is captured
and returned as an error dictionary. -/
def executeTool (env : Env) (toolName : String) (args : Args) : ToolResult :=
  match toolDispatch env toolName args with
  | none => ToolResult.errorRes ("Unknown tool: " ++ toolName)
  | some (Except.ok r) => r
  | some (Except.error e) => ToolResult.errorRes e

/-- Deterministic response synthesis from executed actions, used when the
planner returned tool calls without text.  Result dictionaries are read with
dict.get semantics: a result of the wrong shape carries none of the keys of
the expected shape, so every lookup falls back to its default. -/
def renderAction (a : ActionRec) : List String :=
  if a.tool = "list_devices" then
    match a.result with
    | ToolResult.devices r => [formatDeviceList r]
    | _ => [formatDeviceList { devices := [] }]
  else if a.tool = "get_all_device_statuses" then
    match a.result with
    | ToolResult.allStatuses r => [formatAllDeviceStatuses r]
    | _ => [formatAllDeviceStatuses { statuses := [] }]
  else if a.tool = "get_device_status" then
    match a.result with
    | ToolResult.statusJson r => ["**" ++ r.name.getD "Device" ++ "**: " ++ statusState r]
    | _ => ["**Device**: unknown"]
  else if a.tool = "send_device_command" then
    match a.result with
    | ToolResult.cmd r =>
      if r.success then
        [checkMark ++ " Command " ++ sq ++ a.args.command.getD "command" ++ sq ++
          " executed successfully."]
      else [warnIcon ++ " Command failed: " ++ r.error.getD "Unknown error"]
    | ToolResult.errorRes e => [warnIcon ++ " Command failed: " ++ e]
    | _ => [warnIcon ++ " Command failed: Unknown error"]
  else if a.tool = "get_analytics" then
    match a.result with
    | ToolResult.analytics r => [formatAnalytics r]
    | _ => [formatAnalytics { period := "day", total_events := 0, active_devices := 0,
                              alerts := 0, energy_usage := "N/A", top_devices := [] }]
  else if a.tool = "create_automation" then
    match a.result with
    | ToolResult.automation r =>
      if r.success then [checkMark ++ " Automation created: " ++ a.args.name.getD "New automation"]
      else [warnIcon ++ " Failed to create automation"]
    | _ => [warnIcon ++ " Failed to create automation"]
  else []

/-- Response generator over the executed action list. -/
def generateResponseFromActions (actions : List ActionRec) : String :=
  if actions.isEmpty then
    "I" ++ sq ++ "m not sure how to help with that. Try asking about your devices or their status."
  else
    let responses := (actions.map renderAction).flatten
    if responses.isEmpty then "Done!" else joinWith "\n\n" responses

/-- Maximum planner attempt count. -/
def maxRetries : Nat := 5

/-- Retry loop over attempt outcomes.  Status 200 returns the body; status
429 sleeps the current delay and doubles it up to the 60 second ceiling,
unless the attempt is the last; any other status returns the exhausted
signal at once; a transport exception sleeps the current delay without
doubling it, unless the attempt is the last.  The slept delays are traced in
order.  The fuel argument counts the attempts remaining in range(5). -/
def retryAux (outcomes : Nat → AttemptOutcome) :
    Nat → Nat → Nat → List Nat → Option PlannerResponse × List Nat
  | 0, _, _, trace => (none, trace)
  | fuel + 1, attempt, delay, trace =>
    match outcomes attempt with
    | AttemptOutcome.resp code body =>
      if code = 200 then (some body, trace)
      else if code = 429 then
        if attempt < maxRetries - 1 then
          retryAux outcomes fuel (attempt + 1) (min (delay * 2) 60) (trace ++ [delay])
        else (none, trace)
      else (none, trace)
    | AttemptOutcome.exn _ =>
      if attempt < maxRetries - 1 then
        retryAux outcomes fuel (attempt + 1) delay (trace ++ [delay])
      else (none, trace)

/-- Planner client call with retries: attempts start at zero with a 10 second
delay; the first component is the successful body or none on exhaustion, the
second is the sequence of slept delays. -/
def callGeminiWithRetry (outcomes : Nat → AttemptOutcome) :
    Option PlannerResponse × List Nat :=
  retryAux outcomes maxRetries 0 10 []

/-- Detail string of the busy failure raised when the retry budget returns
none. -/
def busyDetail : String := "AI service is busy. Please try again in a moment."

/-- Error surface of the planner call site: a none from the retry loop is
raised as HTTP 429 with the busy detail; a body passes through. -/
def planOrBusy (outcomes : Nat → AttemptOutcome) :
    Except (Nat × String) PlannerResponse :=
  match (callGeminiWithRetry outcomes).1 with
  | none => Except.error (429, busyDetail)
  | some r => Except.ok r

/-- Fold over the parts of the first candidate: each text part overwrites the
response text, each function call is appended in order. -/
def collectParts (parts : List Part) : String × List (String × Args) :=
  parts.foldl
    (fun acc p =>
      match p with
      | Part.text s => (s, acc.2)
      | Part.funcCall n a => (acc.1, acc.2 ++ [(n, a)]))
    ("", [])

/-- Single planning call: the request carries the system prompt, the trailing
six history messages, the tool declarations and the generation configuration;
the endpoint behaviour is abstracted by Env.gemini per attempt.  On
exhaustion the busy failure is raised; an empty candidate list degrades to
the apology text; otherwise every returned tool call is executed in order and
the response text is the planner text, or is synthesized from the actions
when the planner returned only tool calls. -/
def callGeminiOptimized (env : Env) (_message : String) (_history : List Msg) :
    Except String (String × List ActionRec) :=
  match planOrBusy env.gemini with
  | Except.error e => Except.error e.2
  | Except.ok resp =>
    match resp.candidates with
    | [] => Except.ok ("I couldn" ++ sq ++ "t understand that request. Please try again.", [])
    | parts :: _ =>
      let collected := collectParts parts
      let actions := collected.2.map
        (fun c => { tool := c.1, args := c.2, result := executeTool env c.1 c.2 : ActionRec })
      let text := if collected.1 = "" then generateResponseFromActions actions else collected.1
      Except.ok (text, actions)

/-- One turn body inside the try block: local handling first, the planner on
a miss. -/
def processTurn (env : Env) (message : String) (history : List Msg) :
    Except String (String × List ActionRec) :=
  match tryLocalHandling env message with
  | .error e => .error e
  | .ok (some r) => .ok r
  | .ok (none) => callGeminiOptimized env message history

/-- Chat response record; errors are carried as data in the error field. -/
structure ChatResponse where
  id : String
  conversation_id : String
  message : String
  actions_taken : List ActionRec
  suggestions : List String
  timestamp : String
  error : Option String := none
deriving DecidableEq, Repr

/-- Creation of the empty history for a conversation id not yet in the
store; an id already present leaves the store unchanged. -/
def ensureKey (cid : String) (store : Store) : Store :=
  match lookupStore cid store with
  | none => insertStore cid [] store
  | some _ => store

/-- Chat entry point.  A missing or falsy (empty) conversation id is replaced
by a fresh identifier.  The user message is appended to the stored history
before local handling or planning runs, mirroring the in-place list append of
the source; the assistant message and the truncation to the most recent 20
entries happen only on the success path, so an exception leaves the store
holding the user message without a reply. -/
def chat (env : Env) (store : Store) (message : String) (conversationId : Option String) :
    ChatResponse × Store :=
  let cid := match conversationId with
    | some c => if c = "" then env.freshUuid else c
    | none => env.freshUuid
  let store1 := ensureKey cid store
  let history1 := ((lookupStore cid store1).getD []) ++ [{ role := "user", text := message }]
  let store2 := insertStore cid history1 store1
  match processTurn env message history1 with
  | .error e =>
    ({ id := env.freshUuid, conversation_id := cid, message := "", actions_taken := [],
       suggestions := [], timestamp := env.now, error := some e }, store2)
  | .ok r =>
    let history2 := history1 ++ [{ role := "model", text := r.1 }]
    let store3 := insertStore cid history2 store2
    let history3 :=
      if 20 < history2.length then history2.drop (history2.length - 20) else history2
    let store4 := insertStore cid history3 store3
    ({ id := env.freshUuid, conversation_id := cid, message := r.1, actions_taken := r.2,
       suggestions := generateSuggestions message r.1, timestamp := env.now,
       error := none }, store4)

/-- Response body of the clear-history endpoint. -/
structure ClearResponse where
  status : String
  message : String
deriving DecidableEq, Repr

/-- Clear-history endpoint: the whole conversation dictionary is cleared,
regardless of the caller identity header. -/
def clearHistory (_userId : String) (_store : Store) : ClearResponse × Store :=
  ({ status := "ok", message := "History cleared" }, [])

/-! Concrete environments and inputs used by witnesses and counterexamples. -/

/-- Environment with an empty device directory, succeeding commands and a
permanently rate-limited planner endpoint. -/
def envNone : Env :=
  { devicesHttp := fun _ => .ok (200, []),
    statusHttp := fun _ => .ok (404, {}),
    commandHttp := fun _ _ _ => .ok 200,
    automationHttp := fun _ => .ok 200,
    gemini := fun _ => .resp 429 ⟨[]⟩,
    freshUuid := "u", now := "t" }

/-- A smart lock device. -/
def lockDev : Device :=
  { id := "lock-1", name := "Front Door", type := "smart_lock", online := true,
    location := "Entry" }

/-- Environment whose directory holds one smart lock under the smart_lock
filter and nothing otherwise. -/
def envLock : Env :=
  { envNone with
    devicesHttp := fun t => .ok (200, if t = some "smart_lock" then [lockDev] else []) }

/-- Planner body with a single text part. -/
def respHi : PlannerResponse := ⟨[[Part.text "hi"]]⟩

/-- Outcome sequence: a transport exception on the first attempt, success on
every later one. -/
def outExn : Nat → AttemptOutcome :=
  fun n => if n = 0 then .exn "connection reset" else .resp 200 respHi

/-- Outcome sequence: HTTP 500 on every attempt. -/
def out500 : Nat → AttemptOutcome := fun _ => .resp 500 ⟨[]⟩

/-- Outcome sequence: HTTP 429 on every attempt. -/
def out429 : Nat → AttemptOutcome := fun _ => .resp 429 ⟨[]⟩

/-- Store holding twenty messages under conversation c4. -/
def store20 : Store := [("c4", List.replicate 20 { role := "user", text := "x" })]

/-- Period argument of the first recorded action of a local-handling result. -/
def firstPeriodArg : Except String (Option (String × List ActionRec)) → Option String
  | .ok (some (_, a :: _)) => a.args.period
  | _ => none

/-! Store lemmas. -/

/-- Reading back the key just assigned returns the assigned history. -/
theorem lookupStore_insertStore (cid : String) (h : List Msg) :
    ∀ s : Store, lookupStore cid (insertStore cid h s) = some h := by
  intro s
  induction s with
  | nil => simp [insertStore, lookupStore]
  | cons kv rest ih =>
    by_cases hk : kv.1 = cid
    · simp [insertStore, hk, lookupStore]
    · simp [insertStore, hk, lookupStore, ih]

/-- The defaulted history read through the ensure-key step of chat equals the
defaulted history of the original store. -/
theorem lookup_ensureKey_getD (cid : String) (store : Store) :
    (lookupStore cid (ensureKey cid store)).getD [] = (lookupStore cid store).getD [] := by
  unfold ensureKey
  cases hl : lookupStore cid store with
  | none => simp [lookupStore_insertStore]
  | some v => simp [hl]

/-! Claim C1: analytics period precedence. -/

/-- Claim C1 counterexample: for the message show usage for this week and
month, which triggers the analytics rule and contains both the word week and
the word month, the period argument passed to get_analytics is week, not
month, because the source checks month only in the elif branch taken when
week is absent. -/
theorem analytics_month_claim_cex :
    firstPeriodArg (tryLocalHandling envNone "show usage for this week and month")
        = some "week"
      ∧ (some "week" : Option String) ≠ some "month" := by
  exact ⟨rfl, by decide⟩

/-- Claim C1, amended: when a message reaches and triggers the analytics
rule (no earlier rule phrase occurs, an analytics keyword occurs) and
contains both week and month, the period passed to get_analytics is week:
the period defaults to day, becomes week when the word week appears, and
becomes month only when month appears without week, so week wins over month
when both appear. -/
theorem analytics_period_week_wins (env : Env) (message : String)
    (h1 : devicePatterns.any (fun p => pyIn p (pyNorm message)) = false)
    (h2 : allStatusPatterns.any (fun p => pyIn p (pyNorm message)) = false)
    (h3 : statusPatterns.any (fun p => pyIn p (pyNorm message)) = false)
    (h4 : pyIn "turn on" (pyNorm message) = false)
    (h5 : pyIn "turn off" (pyNorm message) = false)
    (h6 : pyIn "switch on" (pyNorm message) = false)
    (h7 : pyIn "switch off" (pyNorm message) = false)
    (h8 : pyIn "door" (pyNorm message) = false)
    (h9 : pyIn "lock" (pyNorm message) = false)
    (h10 : pyIn "temperature" (pyNorm message) = false)
    (h11 : pyIn "thermostat" (pyNorm message) = false)
    (h12 : analyticsKeywords.any (fun p => pyIn p (pyNorm message)) = true)
    (hweek : pyIn "week" (pyNorm message) = true)
    (_hmonth : pyIn "month" (pyNorm message) = true) :
    tryLocalHandling env message =
      .ok (some (formatAnalytics (analyticsMock "week"),
        [{ tool := "get_analytics", args := { period := some "week" },
           result := ToolResult.analytics (analyticsMock "week") }])) := by
  unfold tryLocalHandling
  simp [ruleListDevices, ruleAllStatuses, ruleSingleStatus, ruleAllLightsLoop,
        ruleOneDeviceLoop, ruleLockLoop, ruleTemperature, ruleAnalytics, orTry,
        onOffPairs, lockPairs, h1, h2, h3, h4, h5, h6, h7, h8, h9, h10, h11, h12,
        hweek, toolGetAnalytics]

/-- Witness for the amended claim C1 at a concrete message and environment. -/
theorem analytics_period_week_wins_witness :
    tryLocalHandling envNone "show usage for this week and month" =
      .ok (some (formatAnalytics (analyticsMock "week"),
        [{ tool := "get_analytics", args := { period := some "week" },
           result := ToolResult.analytics (analyticsMock "week") }])) :=
  analytics_period_week_wins envNone "show usage for this week and month"
    (by decide) (by decide) (by decide) (by decide) (by decide) (by decide)
    (by decide) (by decide) (by decide) (by decide) (by decide) (by decide)
    (by decide) (by decide)

/-! Claim C2: retry only on rate limiting. -/

/-- Claim C2 counterexample: with a transport exception on the first attempt
and success on the second, the client returns the second-attempt body after
one slept delay, so a network error is retried rather than treated as an
immediately exhausted budget, which would have been the pair of none and an
empty delay trace. -/
theorem retry_transport_error_retries_cex :
    callGeminiWithRetry outExn = (some respHi, [10])
      ∧ (some respHi, [10]) ≠ ((none : Option PlannerResponse), ([] : List Nat)) :=
  ⟨rfl, by decide⟩

/-- Claim C2, amended: a non-success, non-429 status terminates at once with
the budget treated as exhausted and no delay slept, while a transport
exception is retried after the current delay, without doubling it; here a
first-attempt exception followed by a success returns that success after one
10 second sleep. -/
theorem retry_nonrate_status_exhausts (outcomes : Nat → AttemptOutcome)
    (code : Nat) (body body2 : PlannerResponse) (e : String) :
    (outcomes 0 = .resp code body → code ≠ 200 → code ≠ 429 →
      callGeminiWithRetry outcomes = (none, []))
    ∧ (outcomes 0 = .exn e → outcomes 1 = .resp 200 body2 →
      callGeminiWithRetry outcomes = (some body2, [10])) := by
  constructor
  · intro h0 h200 h429
    simp [callGeminiWithRetry, retryAux, maxRetries, h0, h200, h429]
  · intro h0 h1
    simp [callGeminiWithRetry, retryAux, maxRetries, h0, h1]

/-- Witness for the amended claim C2 at concrete outcome sequences. -/
theorem retry_nonrate_status_exhausts_witness :
    callGeminiWithRetry out500 = (none, []) :=
  (retry_nonrate_status_exhausts out500 500 ⟨[]⟩ ⟨[]⟩ "e").1 rfl (by decide) (by decide)

/-! Claim C6: deterministic backoff and error distinction. -/

/-- Claim C6 counterexample: a permanent HTTP 500 and a permanent HTTP 429
surface through the planner call site as the identical busy error, a 429 with
the busy detail, so a non-rate-limit planner failure is conflated with the
busy condition rather than surfaced as a distinct non-retryable service
error. -/
theorem planner_errors_conflated_cex :
    planOrBusy out500 = .error (429, busyDetail)
      ∧ planOrBusy out429 = .error (429, busyDetail) := ⟨rfl, rfl⟩

/-- Claim C6, amended: when every attempt is rate limited, the slept delays
are deterministically 10, 20, 40, 60 seconds, doubling from the 10 second
base and capped at 60, for exactly the five configured attempts, after which
the caller receives the busy error; a non-rate-limit failure is surfaced
through the same busy error rather than a distinct one. -/
theorem backoff_deterministic_busy (outcomes outcomes2 : Nat → AttemptOutcome)
    (bodies : Nat → PlannerResponse) (code : Nat) (body : PlannerResponse)
    (hall : ∀ i, i < 5 → outcomes i = .resp 429 (bodies i))
    (hconf : outcomes2 0 = .resp code body) (h200 : code ≠ 200) (h429 : code ≠ 429) :
    callGeminiWithRetry outcomes = (none, [10, 20, 40, 60])
      ∧ planOrBusy outcomes = .error (429, busyDetail)
      ∧ planOrBusy outcomes2 = .error (429, busyDetail) := by
  have e0 := hall 0 (by omega)
  have e1 := hall 1 (by omega)
  have e2 := hall 2 (by omega)
  have e3 := hall 3 (by omega)
  have e4 := hall 4 (by omega)
  have hret : callGeminiWithRetry outcomes = (none, [10, 20, 40, 60]) := by
    simp [callGeminiWithRetry, retryAux, maxRetries, e0, e1, e2, e3, e4]
  have hret2 : callGeminiWithRetry outcomes2 = (none, []) := by
    simp [callGeminiWithRetry, retryAux, maxRetries, hconf, h200, h429]
  exact ⟨hret, by simp [planOrBusy, hret], by simp [planOrBusy, hret2]⟩

/-- Witness for the amended claim C6 at concrete outcome sequences. -/
theorem backoff_deterministic_busy_witness :
    callGeminiWithRetry out429 = (none, [10, 20, 40, 60])
      ∧ planOrBusy out429 = .error (429, busyDetail)
      ∧ planOrBusy out500 = .error (429, busyDetail) :=
  backoff_deterministic_busy out429 out500 (fun _ => ⟨[]⟩) 500 ⟨[]⟩
    (fun _ _ => rfl) rfl (by decide) (by decide)

/-! Claim C3: no partial history update on failure. -/

/-- Claim C3 counterexample: a turn on a fresh conversation that fails with
the planner-busy error leaves the store holding the user message, so the
history for that conversation id differs after the turn (one entry) from
before it (no entry): the user message is appended before any response is
computed. -/
theorem failed_turn_mutates_history_cex :
    lookupStore "c3" ([] : Store) = none
      ∧ (chat envNone [] "hello" (some "c3")).1.error = some busyDetail
      ∧ lookupStore "c3" (chat envNone [] "hello" (some "c3")).2
          = some [{ role := "user", text := "hello" }] := ⟨rfl, rfl, rfl⟩

/-- Claim C3, amended: the user message is appended to the stored history
before local handling or planning runs, so a turn that ends in a
request-level failure leaves the history equal to the prior history extended
by exactly the user message, with no assistant message and no truncation. -/
theorem failed_turn_appends_user_message (env : Env) (store : Store)
    (cid message e : String) (hcid : cid ≠ "")
    (h : (chat env store message (some cid)).1.error = some e) :
    lookupStore cid (chat env store message (some cid)).2
      = some (((lookupStore cid store).getD []) ++ [{ role := "user", text := message }]) := by
  simp only [chat] at h ⊢
  rw [if_neg hcid] at h ⊢
  cases hpt : processTurn env message
      (((lookupStore cid (ensureKey cid store)).getD []) ++
        [{ role := "user", text := message }]) with
  | error err =>
    rw [lookupStore_insertStore, lookup_ensureKey_getD]
  | ok r =>
    rw [hpt] at h
    simp at h

/-- Witness for the amended claim C3 at a concrete failing turn. -/
theorem failed_turn_appends_user_message_witness :
    lookupStore "c3w" (chat envNone [] "hello" (some "c3w")).2
      = some (((lookupStore "c3w" ([] : Store)).getD []) ++
          [{ role := "user", text := "hello" }]) :=
  failed_turn_appends_user_message envNone [] "c3w" "hello" busyDetail (by decide) rfl

/-! Claim C4: history bounded by twenty entries. -/

/-- Claim C4 counterexample: starting from a stored history of exactly twenty
entries, one turn that ends in an error response leaves twenty-one entries,
because the error path appends the user message and skips the truncation. -/
theorem error_turn_exceeds_twenty_cex :
    ((lookupStore "c4" (chat envNone store20 "hello" (some "c4")).2).getD []).length = 21
      ∧ ¬(21 ≤ 20) := ⟨rfl, by decide⟩

/-- Full post-turn history of a successful turn: prior history, then the
user message, then the model reply. -/
def fullTurnHistory (store : Store) (cid message modelText : String) : List Msg :=
  ((lookupStore cid store).getD []) ++
    [{ role := "user", text := message }, { role := "model", text := modelText }]

/-- Truncation applied on the success path: keep the most recent twenty
entries, dropping the oldest from the front. -/
def truncated (l : List Msg) : List Msg :=
  if 20 < l.length then l.drop (l.length - 20) else l

/-- Claim C4, amended: after every successful turn the stored history is the
full appended history truncated to the most recent twenty entries, dropping
the oldest first, hence never exceeds twenty; a turn that ends in an error
response appends the user message without truncating, so the bound can be
exceeded after failed turns. -/
theorem successful_turn_truncates_history (env : Env) (store : Store)
    (cid message : String) (hcid : cid ≠ "") (resp : ChatResponse) (store2 : Store)
    (hres : chat env store message (some cid) = (resp, store2))
    (hok : resp.error = none) :
    lookupStore cid store2
      = some (truncated (fullTurnHistory store cid message resp.message))
    ∧ ((lookupStore cid store2).getD []).length ≤ 20 := by
  simp only [chat] at hres
  rw [if_neg hcid] at hres
  cases hpt : processTurn env message
      (((lookupStore cid (ensureKey cid store)).getD []) ++
        [{ role := "user", text := message }]) with
  | error err =>
    rw [hpt] at hres
    cases hres
    simp at hok
  | ok r =>
    rw [hpt] at hres
    cases hres
    constructor
    · rw [lookupStore_insertStore]
      simp [truncated, fullTurnHistory, lookup_ensureKey_getD, List.append_assoc]
    · rw [lookupStore_insertStore]
      simp only [Option.getD_some]
      split
      · rw [List.length_drop]
        omega
      · next hle => omega

/-- Witness for the amended claim C4 at a concrete successful turn. -/
theorem successful_turn_truncates_history_witness :
    lookupStore "c4w" (chat envNone [] "What devices do I have?" (some "c4w")).2
      = some (truncated (fullTurnHistory [] "c4w" "What devices do I have?"
          (chat envNone [] "What devices do I have?" (some "c4w")).1.message))
    ∧ ((lookupStore "c4w" (chat envNone [] "What devices do I have?" (some "c4w")).2).getD
        []).length ≤ 20 :=
  successful_turn_truncates_history envNone [] "c4w" "What devices do I have?" (by decide)
    (chat envNone [] "What devices do I have?" (some "c4w")).1
    (chat envNone [] "What devices do I have?" (some "c4w")).2 rfl rfl

/-! Claim C5: empty-directory device listing. -/

/-- Claim C5 counterexample: with an empty device directory, the chat
response to the message What devices do I have? carries the exact
no-devices text, but the returned action list is not empty: it records the
one list_devices invocation. -/
theorem empty_device_actions_nonempty_cex :
    (chat envNone [] "What devices do I have?" (some "c5")).1.message
        = "You don" ++ sq ++ "t have any devices registered yet."
      ∧ (chat envNone [] "What devices do I have?" (some "c5")).1.actions_taken
          = [{ tool := "list_devices", args := {},
               result := ToolResult.devices { devices := [] } }]
      ∧ [{ tool := "list_devices", args := {},
           result := ToolResult.devices { devices := [] } }] ≠ ([] : List ActionRec) :=
  ⟨rfl, rfl, by decide⟩

/-- Claim C5, amended: for the message What devices do I have? with an empty
device directory, the response text is exactly the no-devices sentence and
the returned action list contains exactly one record, the list_devices call
with its empty result. -/
theorem empty_device_list_response (env : Env) (store : Store) (cid : String)
    (hdev : toolListDevices env {} = .ok { devices := [] }) :
    (chat env store "What devices do I have?" (some cid)).1.message
        = "You don" ++ sq ++ "t have any devices registered yet."
      ∧ (chat env store "What devices do I have?" (some cid)).1.actions_taken
          = [{ tool := "list_devices", args := {},
               result := ToolResult.devices { devices := [] } }] := by
  have hloc : tryLocalHandling env "What devices do I have?" =
      .ok (some ("You don" ++ sq ++ "t have any devices registered yet.",
        [{ tool := "list_devices", args := {},
           result := ToolResult.devices { devices := [] } }])) := by
    simp only [tryLocalHandling]
    rw [show pyNorm "What devices do I have?" = "what devices do i have?" from rfl]
    simp only [ruleListDevices]
    rw [show (devicePatterns.any (fun p => pyIn p "what devices do i have?") &&
        !(pyIn "status" "what devices do i have?")) = true from rfl]
    simp [hdev, orTry, formatDeviceList]
  constructor <;> simp [chat, processTurn, hloc]

/-- Witness for the amended claim C5 at a concrete environment. -/
theorem empty_device_list_response_witness :
    (chat envNone [] "What devices do I have?" (some "c5w")).1.message
        = "You don" ++ sq ++ "t have any devices registered yet."
      ∧ (chat envNone [] "What devices do I have?" (some "c5w")).1.actions_taken
          = [{ tool := "list_devices", args := {},
               result := ToolResult.devices { devices := [] } }] :=
  empty_device_list_response envNone [] "c5w" rfl

/-! Claim C7: unlock priority over lock. -/

/-- Claim C7: a message that reaches the lock rule group (no earlier rule
phrase occurs) containing unlock together with door or lock resolves through
the unlock branch, which is checked first: the command sent to the first
smart lock returned by the filtered listing is unlock, never lock. -/
theorem unlock_wins_over_lock (env : Env) (message : String)
    (dres : DevicesResult) (d : Device) (ds : List Device) (cres : CmdResult)
    (h1 : devicePatterns.any (fun p => pyIn p (pyNorm message)) = false)
    (h2 : allStatusPatterns.any (fun p => pyIn p (pyNorm message)) = false)
    (h3 : statusPatterns.any (fun p => pyIn p (pyNorm message)) = false)
    (h4 : pyIn "turn on" (pyNorm message) = false)
    (h5 : pyIn "turn off" (pyNorm message) = false)
    (h6 : pyIn "switch on" (pyNorm message) = false)
    (h7 : pyIn "switch off" (pyNorm message) = false)
    (hunlock : pyIn "unlock" (pyNorm message) = true)
    (hdl : (pyIn "door" (pyNorm message) || pyIn "lock" (pyNorm message)) = true)
    (hlist : toolListDevices env { device_type := some "smart_lock" } = .ok dres)
    (hdevs : dres.devices = d :: ds)
    (hcmd : toolSendDeviceCommand env
        { device_id := some d.id, command := some "unlock" } = .ok cres) :
    tryLocalHandling env message =
      .ok (some ("Done! I" ++ sq ++ "ve " ++ "unlock" ++ "ed the " ++ d.name ++ ".",
        [{ tool := "list_devices", args := { device_type := some "smart_lock" },
           result := ToolResult.devices dres },
         { tool := "send_device_command",
           args := { device_id := some d.id, command := some "unlock" },
           result := ToolResult.cmd cres }])) := by
  unfold tryLocalHandling
  simp [ruleListDevices, ruleAllStatuses, ruleSingleStatus, ruleAllLightsLoop,
        ruleOneDeviceLoop, ruleLockLoop, orTry, onOffPairs, lockPairs,
        h1, h2, h3, h4, h5, h6, h7, hunlock, hdl, hlist, hdevs, hcmd]

/-- Witness for claim C7 at the message unlock the front door with one smart
lock in the directory. -/
theorem unlock_wins_over_lock_witness :
    tryLocalHandling envLock "unlock the front door" =
      .ok (some ("Done! I" ++ sq ++ "ve " ++ "unlock" ++ "ed the " ++ lockDev.name ++ ".",
        [{ tool := "list_devices", args := { device_type := some "smart_lock" },
           result := ToolResult.devices { devices := [lockDev] } },
         { tool := "send_device_command",
           args := { device_id := some lockDev.id, command := some "unlock" },
           result := ToolResult.cmd
             { success := true,
               message := some ("Command " ++ sq ++ "unlock" ++ sq ++ " executed") } }])) :=
  unlock_wins_over_lock envLock "unlock the front door" { devices := [lockDev] } lockDev []
    { success := true, message := some ("Command " ++ sq ++ "unlock" ++ sq ++ " executed") }
    (by decide) (by decide) (by decide) (by decide) (by decide) (by decide) (by decide)
    (by decide) (by decide) rfl rfl rfl

/-! Claim C8: automation creation webhook. -/

/-- Environment whose automation webhook fails every call. -/
def envAutoFail : Env := { envNone with automationHttp := fun _ => .error "webhook down" }

/-- Claim C8 counterexample: the create_automation tool returns the mock
success even under an environment whose automation webhook fails every call,
and its result is identical under a webhook that would succeed, so no POST
reaches the webhook and the result does not follow the webhook response. -/
theorem create_automation_ignores_webhook_cex :
    toolCreateAutomation envAutoFail { name := some "Night mode" }
        = .ok { success := true,
                message := "Automation " ++ sq ++ "Night mode" ++ sq ++ " created",
                id := "u" }
      ∧ toolCreateAutomation envNone { name := some "Night mode" }
          = toolCreateAutomation envAutoFail { name := some "Night mode" } := ⟨rfl, rfl⟩

/-- Claim C8, amended: the create_automation tool does not contact the
automation webhook; it unconditionally returns a mock success carrying the
automation name and a fresh identifier, and its result is invariant under
any replacement of the webhook behaviour. -/
theorem create_automation_mock_success (env : Env) (args : Args)
    (f : String → Except String Nat) :
    toolCreateAutomation env args
        = .ok { success := true,
                message := "Automation " ++ sq ++ pyStr args.name ++ sq ++ " created",
                id := env.freshUuid }
      ∧ toolCreateAutomation { env with automationHttp := f } args
          = toolCreateAutomation env args := ⟨rfl, rfl⟩

/-! Claim C9: the tool executor is total. -/

/-- Claim C9: the executor always returns a result value.  An unknown tool
name yields the unknown-tool error dictionary; a tool implementation that
raises has its exception captured and returned as an error dictionary; a
tool implementation that returns passes its result through. -/
theorem execute_tool_total (env : Env) (toolName : String) (args : Args)
    (e : String) (r : ToolResult) :
    (toolName ∉ knownToolNames →
      executeTool env toolName args = ToolResult.errorRes ("Unknown tool: " ++ toolName))
    ∧ (toolDispatch env toolName args = some (Except.error e) →
      executeTool env toolName args = ToolResult.errorRes e)
    ∧ (toolDispatch env toolName args = some (Except.ok r) →
      executeTool env toolName args = r) := by
  refine ⟨?_, ?_, ?_⟩
  · intro hn
    simp only [knownToolNames, List.mem_cons, List.not_mem_nil, or_false, not_or] at hn
    obtain ⟨n1, n2, n3, n4, n5, n6⟩ := hn
    have hd : toolDispatch env toolName args = none := by
      simp [toolDispatch, n1, n2, n3, n4, n5, n6]
    simp [executeTool, hd]
  · intro hd
    simp [executeTool, hd]
  · intro hd
    simp [executeTool, hd]

/-- Witness for claim C9 at an unknown tool name. -/
theorem execute_tool_total_witness :
    executeTool envNone "frobnicate" {} = ToolResult.errorRes "Unknown tool: frobnicate" :=
  (execute_tool_total envNone "frobnicate" {} "e" (ToolResult.errorRes "e")).1 (by decide)

/-! Claim C10: clear-history wipes the whole store. -/

/-- Claim C10: one call to the clear-history endpoint by any caller empties
the whole conversation store, so every conversation id of every user reads
back as absent afterwards. -/
theorem clear_history_clears_all (userId : String) (store : Store) (cid : String) :
    (clearHistory userId store).2 = ([] : Store)
      ∧ lookupStore cid (clearHistory userId store).2 = none := ⟨rfl, rfl⟩

end HomeGuard
